import Mathlib

/-!
Verification of the per-file transform stage of the module bundler
(packager/src/ModuleGraph/worker/transform-module.js).

The JavaScript source is shallowly embedded: the callback-passing style of
the original is modelled by an explicit `Except Err` result (a value passed
to the callback as an error, and an exception thrown synchronously, both
become `Except.error`), Node buffers become a record of raw bytes together
with their UTF-8 decoding, and the external collaborators (babel transformer,
dependency collector, code generator, docblock parser, JSON parser) are
explicit function-valued inputs, exactly as the source treats them as opaque
capabilities.
-/

namespace ModuleGraphWorker

/-- Errors raised by a transformer or by JSON parsing, modelled as opaque
message strings. -/
abbrev Err := String

/-- Opaque per-variant transformer configuration (a JS object of options). -/
abbrev VariantConfig := List (String × String)

/-- A directive node (for example a use-strict prologue entry); opaque. -/
abbrev Directive := String

/-- Babel AST nodes, covering exactly the node shapes constructed by the
wrapping code (babel.types in the source); transformer-produced statements
and any other node kinds are opaque (`extra`). -/
inductive Node where
  | identifier (name : String) : Node
  | callExpression (callee : Node) (arguments : List Node) : Node
  | functionExpression (idName : String) (params : List Node) (body : Node) : Node
  | blockStatement (body : List Node) (directives : List Directive) : Node
  | expressionStatement (e : Node) : Node
  | extra (tag : Nat) : Node

/-- A babel Program node: top-level statements plus directives. -/
structure Program where
  body : List Node
  directives : List Directive

/-- A babel File node wrapping a program, as produced by the transformer and
by the wrappers. -/
structure File where
  program : Program

/-- One statically detected dependency reference: the raw specifier plus
opaque transformer-attached data. -/
structure Dependency where
  name : String
  extraData : Nat

/-- Positional source-mapping data; opaque to this core. -/
abbrev SourceMap := String

/-- Result of the external code generator (generate.js collaborator). -/
structure GenerateResult where
  code : String
  map : Option SourceMap

/-- Result of the external dependency collector (collect-dependencies.js
collaborator). -/
structure CollectedDeps where
  dependencies : List Dependency
  dependencyMapName : String

/-- Result of docblock.parseAsObject: the recognized docblock keys; only
providesModule is consumed by this core. -/
structure DocblockProps where
  providesModule : Option String

/-- The observable shape of a parsed JSON document: the fields this core
reads from the value returned by JSON.parse. A missing field is `none`. -/
structure JValue where
  name : Option String
  main : Option String
  browser : Option String
  reactNative : Option String

/-- Result of one transformer invocation: the transformed syntax tree. -/
structure TransformerResult where
  ast : File

/-- The pluggable code transformer capability:
(sourceCode, filename, variantConfig) to a transformed tree, or an error
(a thrown exception in the JavaScript source). -/
abbrev Transformer := String → String → VariantConfig → Except Err TransformerResult

/-- The external collaborators imported at the top of transform-module.js:
JSON.parse, collect-dependencies, generate, and docblock. -/
structure Externals where
  jsonParse : String → Except Err JValue
  collectDependencies : File → CollectedDeps
  generate : File → String → String → GenerateResult
  docblockExtract : String → String
  docblockParseAsObject : String → DocblockProps

/-- The variants mapping: an ordered mapping from variant name to its
configuration (a JS object, whose key order is insertion order). -/
abbrev TransformVariants := List (String × VariantConfig)

/-- TransformOptions from the source: filename, an optional polyfill flag,
the transformer, and an optional variants mapping (`none` models the field
being omitted or undefined). -/
structure TransformOptions where
  filename : String
  polyfill : Option Bool
  transformer : Transformer
  variants : Option TransformVariants

/-- Per-variant output (TransformResult in types.flow): generated code,
optional source map, ordered dependencies, optional dependency table name. -/
structure TransformResult where
  code : String
  map : Option SourceMap
  dependencies : List Dependency
  dependencyMapName : Option String

/-- The package summary attached for package.json manifests. -/
structure PackageProps where
  name : Option String
  main : Option String
  browser : Option String
  reactNative : Option String

/-- The unit of output, one per input file (TransformedFile in types.flow).
The transformed field is an ordered mapping from variant name to its
result; type is one of "module", "script", "asset". -/
structure TransformedFile where
  assetContent : Option String
  code : String
  file : String
  hasteID : Option String
  transformed : List (String × TransformResult)
  type : String
  package : Option PackageProps

/-- A Node Buffer: raw byte content together with its UTF-8 decoding (the
decoding itself is Node standard library behaviour, carried as a field so
that toString with utf8 is a projection). -/
structure Buffer where
  bytes : List Nat
  utf8 : String

/-- The base64 alphabet used by Buffer.toString with base64. -/
def base64Chars : List Char :=
  "ABCDEFGHIJKLMNOPQRSTUVWXYZabcdefghijklmnopqrstuvwxyz0123456789+/".toList

/-- The character encoding a six-bit group. -/
def sextetChar (n : Nat) : Char := base64Chars.getD n 'A'

/-- The six-bit group encoded by a character of the alphabet. -/
def charSextet (c : Char) : Nat := base64Chars.indexOf c

/-- Standard base64 encoding of a byte sequence (Node
Buffer.toString with base64): three bytes become four alphabet characters,
a final group of one or two bytes is padded with = characters. -/
def encodeB64 : List Nat → List Char
  | [] => []
  | [a] => [sextetChar (a / 4), sextetChar (a % 4 * 16), '=', '=']
  | [a, b] =>
    [sextetChar (a / 4), sextetChar (a % 4 * 16 + b / 16), sextetChar (b % 16 * 4), '=']
  | a :: b :: c :: rest =>
    sextetChar (a / 4) :: sextetChar (a % 4 * 16 + b / 16) ::
    sextetChar (b % 16 * 4 + c / 64) :: sextetChar (c % 64) :: encodeB64 rest

/-- Standard base64 decoding, the inverse of `encodeB64`. -/
def decodeB64 : List Char → List Nat
  | c0 :: c1 :: c2 :: c3 :: rest =>
    if c2 = '=' then
      [charSextet c0 * 4 + charSextet c1 / 16]
    else if c3 = '=' then
      [charSextet c0 * 4 + charSextet c1 / 16,
       charSextet c1 % 16 * 16 + charSextet c2 / 4]
    else
      (charSextet c0 * 4 + charSextet c1 / 16) ::
      (charSextet c1 % 16 * 16 + charSextet c2 / 4) ::
      (charSextet c2 % 4 * 64 + charSextet c3) ::
      decodeB64 rest
  | _ => []

/-- Buffer.toString with utf8. -/
def Buffer.toStringUtf8 (b : Buffer) : String := b.utf8

/-- Buffer.toString with base64. -/
def Buffer.toStringBase64 (b : Buffer) : String := String.mk (encodeB64 b.bytes)

/-- The JavaScript String.prototype.endsWith: suffix test on the character
sequence. -/
def jsEndsWith (s suffix : String) : Bool := suffix.data.isSuffixOf s.data

/-- basename from the path module: the final path component. -/
def basename (p : String) : String := ((p.splitOn "/").getLast?).getD p

/-- The JavaScript expression x or-else null (as in
annotations.providesModule or null): an empty string is falsy and collapses
to null. -/
def jsOrNull (o : Option String) : Option String :=
  match o with
  | some s => if s = "" then none else some s
  | none => none

/-- defaultVariants from the source: a single variant named default with an
empty configuration. -/
def defaultVariants : TransformVariants := [("default", [])]

/-- moduleFactoryParameters from the source. -/
def moduleFactoryParameters : List String := ["global", "require", "module", "exports"]

/-- polyfillFactoryParameters from the source. -/
def polyfillFactoryParameters : List String := ["global"]

/-- Whether an Except value carries a success (isOk). -/
def isOkE {α : Type} : Except Err α → Bool
  | .ok _ => true
  | .error _ => false

/-- The series combinator of the async library, applied to the tasks object
built by transformModule: tasks are evaluated in key order (object insertion
order); the first error aborts and is passed to the final callback,
otherwise all results are collected keyed by task name. -/
def runSeries {α : Type} : List (String × Except Err α) → Except Err (List (String × α))
  | [] => .ok []
  | (_, .error e) :: _ => .error e
  | (name, .ok v) :: rest =>
    match runSeries rest with
    | .error e => .error e
    | .ok others => .ok ((name, v) :: others)

/-- makeIdentifier from the source: babel.types.identifier(name). -/
def makeIdentifier (name : String) : Node := .identifier name

/-- functionFromProgram from the source: an anonymous function expression
over the given parameters whose body is a block statement carrying the whole
program body and its directives. -/
def functionFromProgram (program : Program) (parameters : List String) : Node :=
  .functionExpression "" (parameters.map makeIdentifier)
    (.blockStatement program.body program.directives)

/-- wrapModule from the source: the module factory takes the four fixed
parameters plus the dependency map name, and the output file is a single
expression statement calling __d with the factory as sole argument. -/
def wrapModule (file : File) (dependencyMapName : String) : File :=
  let params := moduleFactoryParameters ++ [dependencyMapName]
  let factory := functionFromProgram file.program params
  let defCall := Node.callExpression (.identifier "__d") [factory]
  ⟨⟨[Node.expressionStatement defCall], []⟩⟩

/-- wrapPolyfill from the source: the factory takes the single global
parameter and is immediately invoked with this as sole argument. -/
def wrapPolyfill (file : File) : File :=
  let factory := functionFromProgram file.program polyfillFactoryParameters
  let iife := Node.callExpression factory [.identifier "this"]
  ⟨⟨[Node.expressionStatement iife], []⟩⟩

/-- makeResult from the source: polyfills get no dependencies and the
polyfill wrapper, modules get collected dependencies and the module wrapper;
either tree is serialized by the external generator. -/
def makeResult (env : Externals) (ast : File) (filename sourceCode : String)
    (isPolyfill : Bool) : TransformResult :=
  if isPolyfill then
    let file := wrapPolyfill ast
    let gen := env.generate file filename sourceCode
    ⟨gen.code, gen.map, [], none⟩
  else
    let collected := env.collectDependencies ast
    let file := wrapModule ast collected.dependencyMapName
    let gen := env.generate file filename sourceCode
    ⟨gen.code, gen.map, collected.dependencies, some collected.dependencyMapName⟩

/-- transformAsset from the source. -/
def transformAsset (content : Buffer) (options : TransformOptions) : TransformedFile :=
  ⟨some content.toStringBase64, "", options.filename, none, [], "asset", none⟩

/-- The code string built by transformJSON of the source. -/
def jsonWrapperCode (json : String) : String :=
  "__d(function(" ++ String.intercalate ", " moduleFactoryParameters ++
    ") \x7b module.exports = \n" ++ json ++ "\n\x7d);"

/-- transformJSON from the source: JSON.parse may throw (propagated as an
error); on success a single shared module data record is used for every
variant, hasteID is the name field of the parsed value, and package.json
files get a package summary. -/
def transformJSON (env : Externals) (json : String) (options : TransformOptions) :
    Except Err TransformedFile :=
  match env.jsonParse json with
  | .error e => .error e
  | .ok value =>
    let filename := options.filename
    let code := jsonWrapperCode json
    let moduleData : TransformResult := ⟨code, none, [], none⟩
    let transformed := (options.variants.getD defaultVariants).map (fun kv => (kv.1, moduleData))
    let pkg : Option PackageProps :=
      if basename filename = "package.json" then
        some ⟨value.name, value.main, value.browser, value.reactNative⟩
      else none
    .ok ⟨none, json, filename, value.name, transformed, "module", pkg⟩

/-- The source-code path of transformModule from the source: one task per
variant invoking the transformer, run by series; on success each result tree
is wrapped by makeResult, the docblock annotation set provides hasteID, and
the file type is script for polyfills, module otherwise. -/
def transformSource (env : Externals) (code : String) (options : TransformOptions) :
    Except Err TransformedFile :=
  let filename := options.filename
  let variants := options.variants.getD defaultVariants
  let tasks := variants.map (fun nv => (nv.1, options.transformer code filename nv.2))
  match runSeries tasks with
  | .error e => .error e
  | .ok results =>
    let transformed := results.map
      (fun kv => (kv.1, makeResult env kv.2.ast filename code (options.polyfill.getD false)))
    let anns := env.docblockParseAsObject (env.docblockExtract code)
    .ok ⟨none, code, filename, jsOrNull anns.providesModule, transformed,
         if options.polyfill.getD false then "script" else "module", none⟩

/-- transformModule from the source: dispatch on the filename to the asset,
structured-data, or source-code path. -/
def transformModule (env : Externals) (content : Buffer) (options : TransformOptions) :
    Except Err TransformedFile :=
  if jsEndsWith options.filename ".png" then
    .ok (transformAsset content options)
  else
    let code := content.toStringUtf8
    if jsEndsWith options.filename ".json" then
      transformJSON env code options
    else
      transformSource env code options

/-- The three handling paths of the dispatcher. -/
inductive FileClass where
  | asset : FileClass
  | structuredData : FileClass
  | sourceCode : FileClass
deriving DecidableEq

/-- The classification function implicit in the dispatch at the top of
transformModule: a function of the filename alone. -/
def classify (filename : String) : FileClass :=
  if jsEndsWith filename ".png" then .asset
  else if jsEndsWith filename ".json" then .structuredData
  else .sourceCode

/-- Every alphabet character decodes back to its six-bit group. -/
lemma charSextet_sextetChar : ∀ n, n < 64 → charSextet (sextetChar n) = n := by decide

/-- No alphabet character is the padding character. -/
lemma sextetChar_ne_pad : ∀ n, n < 64 → ¬(sextetChar n = '=') := by decide

/-- Base64 round trip: decoding the encoding of a byte sequence yields the
original bytes. -/
theorem decodeB64_encodeB64 : ∀ (bs : List Nat), (∀ b ∈ bs, b < 256) →
    decodeB64 (encodeB64 bs) = bs := by
  intro bs
  induction bs using encodeB64.induct with
  | case1 => intro _; rfl
  | case2 a =>
    intro h
    have ha : a < 256 := h a (by simp)
    have e1 := charSextet_sextetChar (a / 4) (by omega)
    have e2 := charSextet_sextetChar (a % 4 * 16) (by omega)
    simp only [encodeB64, decodeB64, if_true]
    rw [e1, e2]
    simp only [List.cons.injEq, and_true]
    omega
  | case3 a b =>
    intro h
    have ha : a < 256 := h a (by simp)
    have hb : b < 256 := h b (by simp)
    have e1 := charSextet_sextetChar (a / 4) (by omega)
    have e2 := charSextet_sextetChar (a % 4 * 16 + b / 16) (by omega)
    have e3 := charSextet_sextetChar (b % 16 * 4) (by omega)
    simp only [encodeB64, decodeB64, if_true]
    rw [if_neg (sextetChar_ne_pad _ (by omega))]
    rw [e1, e2, e3]
    simp only [List.cons.injEq, and_true]
    refine ⟨by omega, by omega⟩
  | case4 a b c rest ih =>
    intro h
    have ha : a < 256 := h a (by simp)
    have hb : b < 256 := h b (by simp)
    have hc : c < 256 := h c (by simp)
    have hrest : ∀ x ∈ rest, x < 256 := fun x hx => h x (by simp [hx])
    have e1 := charSextet_sextetChar (a / 4) (by omega)
    have e2 := charSextet_sextetChar (a % 4 * 16 + b / 16) (by omega)
    have e3 := charSextet_sextetChar (b % 16 * 4 + c / 64) (by omega)
    have e4 := charSextet_sextetChar (c % 64) (by omega)
    simp only [encodeB64, decodeB64]
    rw [if_neg (sextetChar_ne_pad _ (by omega)), if_neg (sextetChar_ne_pad _ (by omega))]
    rw [e1, e2, e3, e4, ih hrest]
    simp only [List.cons.injEq, and_true]
    refine ⟨by omega, by omega, by omega⟩

/-- A successful series run preserves the task keys in order. -/
lemma runSeries_map_fst {α : Type} :
    ∀ {l : List (String × Except Err α)} {res}, runSeries l = Except.ok res →
      res.map Prod.fst = l.map Prod.fst := by
  intro l
  induction l with
  | nil =>
    intro res h
    simp only [runSeries] at h
    cases h
    rfl
  | cons p rest ih =>
    intro res h
    obtain ⟨k, r⟩ := p
    cases r with
    | error e =>
      simp only [runSeries] at h
      exact Except.noConfusion h
    | ok v =>
      simp only [runSeries] at h
      cases hr : runSeries rest with
      | error e => rw [hr] at h; cases h
      | ok others =>
        rw [hr] at h
        cases h
        simp [ih hr]

/-- Every entry of a successful series run comes from a successful task. -/
lemma runSeries_mem {α : Type} :
    ∀ {l : List (String × Except Err α)} {res}, runSeries l = Except.ok res →
      ∀ q ∈ res, (q.1, Except.ok q.2) ∈ l := by
  intro l
  induction l with
  | nil =>
    intro res h q hq
    simp only [runSeries] at h
    cases h
    cases hq
  | cons p rest ih =>
    intro res h q hq
    obtain ⟨k, r⟩ := p
    cases r with
    | error e =>
      simp only [runSeries] at h
      exact Except.noConfusion h
    | ok v =>
      simp only [runSeries] at h
      cases hr : runSeries rest with
      | error e => rw [hr] at h; cases h
      | ok others =>
        rw [hr] at h
        cases h
        rcases List.mem_cons.1 hq with hq1 | hq2
        · subst hq1; exact List.mem_cons_self _ _
        · exact List.mem_cons_of_mem _ (ih hr q hq2)

/-- If every task succeeds, the whole series run succeeds. -/
lemma runSeries_ok_of_all {α : Type} :
    ∀ {l : List (String × Except Err α)}, (∀ p ∈ l, isOkE p.2 = true) →
      ∃ res, runSeries l = Except.ok res := by
  intro l
  induction l with
  | nil => intro _; exact ⟨[], rfl⟩
  | cons p rest ih =>
    intro h
    obtain ⟨k, r⟩ := p
    cases r with
    | error e =>
      have := h (k, Except.error e) (List.mem_cons_self _ _)
      simp [isOkE] at this
    | ok v =>
      obtain ⟨others, hr⟩ := ih (fun q hq => h q (List.mem_cons_of_mem _ hq))
      exact ⟨(k, v) :: others, by simp only [runSeries, hr]⟩

/-- If some task fails, the whole series run fails. -/
lemma runSeries_error_of_mem {α : Type} :
    ∀ {l : List (String × Except Err α)} {k : String} {e : Err},
      (k, Except.error e) ∈ l → ∃ e2, runSeries l = Except.error e2 := by
  intro l
  induction l with
  | nil => intro k e h; cases h
  | cons p rest ih =>
    intro k e h
    obtain ⟨k0, r0⟩ := p
    cases r0 with
    | error e0 => exact ⟨e0, rfl⟩
    | ok v =>
      rcases List.mem_cons.1 h with h1 | h2
      · cases h1
      · obtain ⟨e2, hr⟩ := ih h2
        exact ⟨e2, by simp only [runSeries, hr]⟩

/-- If exactly one task fails (keys are distinct and every other task
succeeds), the series run fails with precisely that error. -/
lemma runSeries_unique_error {α : Type} :
    ∀ {l : List (String × Except Err α)} {k : String} {e : Err},
      (l.map Prod.fst).Nodup → (k, Except.error e) ∈ l →
      (∀ p ∈ l, p.1 ≠ k → isOkE p.2 = true) →
      runSeries l = Except.error e := by
  intro l
  induction l with
  | nil => intro k e _ h _; cases h
  | cons p rest ih =>
    intro k e hnodup hmem hothers
    obtain ⟨k0, r0⟩ := p
    have hnodup2 : (k0 :: rest.map Prod.fst).Nodup := by
      rw [List.map_cons] at hnodup
      exact hnodup
    have hnd := List.nodup_cons.1 hnodup2
    rcases List.mem_cons.1 hmem with h1 | h2
    · cases h1
      rfl
    · have hk : k ∈ rest.map Prod.fst :=
        List.mem_map.2 ⟨(k, Except.error e), h2, rfl⟩
      have hk0 : k0 ≠ k := fun hEq => hnd.1 (hEq ▸ hk)
      have hok0 : isOkE r0 = true := hothers (k0, r0) (List.mem_cons_self _ _) hk0
      cases r0 with
      | error e0 => simp [isOkE] at hok0
      | ok v =>
        have hr := ih hnd.2 h2
          (fun q hq hne => hothers q (List.mem_cons_of_mem _ hq) hne)
        simp only [runSeries, hr]

/-- A filename ending in .json does not end in .png, so the structured-data
test is reached whenever it can match. -/
lemma json_not_png {s : String} (h : jsEndsWith s ".json" = true) :
    jsEndsWith s ".png" = false := by
  by_contra hc
  rw [Bool.not_eq_false] at hc
  unfold jsEndsWith at h hc
  obtain ⟨t, ht⟩ := List.isSuffixOf_iff_suffix.mp h
  obtain ⟨u, hu⟩ := List.isSuffixOf_iff_suffix.mp hc
  have h1 : s.data.getLast? = some 'n' := by
    rw [← ht, List.getLast?_append_of_ne_nil _ (by decide)]
    decide
  have h2 : s.data.getLast? = some 'g' := by
    rw [← hu, List.getLast?_append_of_ne_nil _ (by decide)]
    decide
  rw [h1] at h2
  exact Option.noConfusion h2 (fun hch => Char.noConfusion hch (by decide))

/-- On a png filename, transformModule takes the asset path. -/
lemma transformModule_png_eq (env : Externals) (content : Buffer)
    (options : TransformOptions) (hpng : jsEndsWith options.filename ".png" = true) :
    transformModule env content options = Except.ok (transformAsset content options) := by
  simp [transformModule, hpng]

/-- On a json filename, transformModule takes the structured-data path. -/
lemma transformModule_json_eq (env : Externals) (content : Buffer)
    (options : TransformOptions)
    (hpng : jsEndsWith options.filename ".png" = false)
    (hjson : jsEndsWith options.filename ".json" = true) :
    transformModule env content options = transformJSON env content.toStringUtf8 options := by
  simp [transformModule, hpng, hjson]

/-- On any other filename, transformModule takes the source-code path. -/
lemma transformModule_source_eq (env : Externals) (content : Buffer)
    (options : TransformOptions)
    (hpng : jsEndsWith options.filename ".png" = false)
    (hjson : jsEndsWith options.filename ".json" = false) :
    transformModule env content options = transformSource env content.toStringUtf8 options := by
  simp [transformModule, hpng, hjson]

/-- Claim C3: for every non-polyfill source-code variant, the wrapped output
tree consists of exactly one top-level statement, a call to __d whose sole
argument is a function expression with parameter list exactly
(global, require, module, exports, dependencyTableName) in that order and
whose body is the entire original program body with directives and
statements preserved in their original order. -/
theorem wrapModule_single_registration (file : File) (dependencyMapName : String) :
    wrapModule file dependencyMapName =
      ⟨⟨[Node.expressionStatement (Node.callExpression (Node.identifier "__d")
          [Node.functionExpression ""
            [Node.identifier "global", Node.identifier "require", Node.identifier "module",
             Node.identifier "exports", Node.identifier dependencyMapName]
            (Node.blockStatement file.program.body file.program.directives)])], []⟩⟩ := rfl

/-- Claim C5: for every input classified as an asset, the result has an
empty transformed mapping, empty rawCode, absent legacy module id, asset
kind, and an assetContent whose decoding yields exactly the original bytes. -/
theorem transformModule_asset_roundtrip (env : Externals) (content : Buffer)
    (options : TransformOptions)
    (hpng : jsEndsWith options.filename ".png" = true)
    (hbytes : ∀ b ∈ content.bytes, b < 256) :
    ∃ tf, transformModule env content options = Except.ok tf ∧
      tf.transformed = [] ∧ tf.code = "" ∧ tf.hasteID = none ∧ tf.type = "asset" ∧
      ∃ s, tf.assetContent = some s ∧ decodeB64 s.data = content.bytes := by
  refine ⟨transformAsset content options, transformModule_png_eq env content options hpng,
    rfl, rfl, rfl, rfl,
    String.mk (encodeB64 content.bytes), rfl, decodeB64_encodeB64 _ hbytes⟩

/-- Claim C7: classification is a deterministic function of the filename
(classify) choosing exactly one of the three paths of transformModule; every
png filename is routed to the asset path, every json filename to the
structured-data path, every other filename to the source-code path. -/
theorem transformModule_dispatch (env : Externals) (content : Buffer)
    (options : TransformOptions) :
    (classify options.filename = FileClass.asset →
      transformModule env content options = Except.ok (transformAsset content options)) ∧
    (classify options.filename = FileClass.structuredData →
      transformModule env content options = transformJSON env content.toStringUtf8 options) ∧
    (classify options.filename = FileClass.sourceCode →
      transformModule env content options = transformSource env content.toStringUtf8 options) ∧
    (jsEndsWith options.filename ".png" = true →
      classify options.filename = FileClass.asset) ∧
    (jsEndsWith options.filename ".json" = true →
      classify options.filename = FileClass.structuredData) ∧
    (jsEndsWith options.filename ".png" = false →
      jsEndsWith options.filename ".json" = false →
      classify options.filename = FileClass.sourceCode) := by
  by_cases hp : jsEndsWith options.filename ".png" = true
  case pos =>
    have hcl : classify options.filename = FileClass.asset := by simp [classify, hp]
    refine ⟨fun _ => transformModule_png_eq env content options hp,
      fun hc => ?_, fun hc => ?_, fun _ => hcl, fun hj => ?_, fun hp2 _ => ?_⟩
    · rw [hcl] at hc; exact FileClass.noConfusion hc
    · rw [hcl] at hc; exact FileClass.noConfusion hc
    · have := json_not_png hj
      rw [hp] at this
      exact Bool.noConfusion this
    · rw [hp] at hp2; exact Bool.noConfusion hp2
  case neg =>
    simp only [Bool.not_eq_true] at hp
    by_cases hj : jsEndsWith options.filename ".json" = true
    case pos =>
      have hcl : classify options.filename = FileClass.structuredData := by
        simp [classify, hp, hj]
      refine ⟨fun hc => ?_, fun _ => transformModule_json_eq env content options hp hj,
        fun hc => ?_, fun hp2 => ?_, fun _ => hcl, fun _ hj2 => ?_⟩
      · rw [hcl] at hc; exact FileClass.noConfusion hc
      · rw [hcl] at hc; exact FileClass.noConfusion hc
      · rw [hp] at hp2; exact Bool.noConfusion hp2
      · rw [hj] at hj2; exact Bool.noConfusion hj2
    case neg =>
      simp only [Bool.not_eq_true] at hj
      have hcl : classify options.filename = FileClass.sourceCode := by
        simp [classify, hp, hj]
      refine ⟨fun hc => ?_, fun hc => ?_,
        fun _ => transformModule_source_eq env content options hp hj,
        fun hp2 => ?_, fun hj2 => ?_, fun _ _ => hcl⟩
      · rw [hcl] at hc; exact FileClass.noConfusion hc
      · rw [hcl] at hc; exact FileClass.noConfusion hc
      · rw [hp] at hp2; exact Bool.noConfusion hp2
      · rw [hj] at hj2; exact Bool.noConfusion hj2

/-- Claim C8: for every structured-data input whose text fails to parse, the
whole operation fails with the malformed-input error and no TransformedFile
is produced. -/
theorem transformModule_json_malformed (env : Externals) (content : Buffer)
    (options : TransformOptions) (e : Err)
    (hpng : jsEndsWith options.filename ".png" = false)
    (hjson : jsEndsWith options.filename ".json" = true)
    (hparse : env.jsonParse content.toStringUtf8 = Except.error e) :
    transformModule env content options = Except.error e := by
  rw [transformModule_json_eq env content options hpng hjson]
  simp only [transformJSON, hparse]

/-- Claim C4: for every structured-data input that parses successfully,
every requested variant receives the identical generated code string, that
string embeds the original text verbatim after the module-export assignment
inside a single registration statement, no source map is produced, and
hasteID equals the name field of the parsed document when present, absent
otherwise. -/
theorem transformModule_json_uniform (env : Externals) (content : Buffer)
    (options : TransformOptions) (value : JValue)
    (hpng : jsEndsWith options.filename ".png" = false)
    (hjson : jsEndsWith options.filename ".json" = true)
    (hparse : env.jsonParse content.toStringUtf8 = Except.ok value) :
    ∃ tf, transformModule env content options = Except.ok tf ∧
      tf.transformed.map Prod.fst = (options.variants.getD defaultVariants).map Prod.fst ∧
      (∀ q ∈ tf.transformed,
        q.2.code = jsonWrapperCode content.toStringUtf8 ∧ q.2.map = none) ∧
      jsonWrapperCode content.toStringUtf8 =
        "__d(function(global, require, module, exports) \x7b module.exports = \n" ++
          content.toStringUtf8 ++ "\n\x7d);" ∧
      tf.hasteID = value.name := by
  rw [transformModule_json_eq env content options hpng hjson]
  refine ⟨⟨none, content.toStringUtf8, options.filename, value.name,
      (options.variants.getD defaultVariants).map
        (fun kv => (kv.1, ⟨jsonWrapperCode content.toStringUtf8, none, [], none⟩)),
      "module",
      if basename options.filename = "package.json" then
        some ⟨value.name, value.main, value.browser, value.reactNative⟩
      else none⟩, ?_, ?_, ?_, ?_, rfl⟩
  · simp only [transformJSON, hparse]
  · rw [List.map_map]
    rfl
  · intro q hq
    obtain ⟨kv, _, rfl⟩ := List.mem_map.1 hq
    exact ⟨rfl, rfl⟩
  · have hL : "__d(function(" ++ String.intercalate ", " moduleFactoryParameters ++
        ") \x7b module.exports = \n" =
        "__d(function(global, require, module, exports) \x7b module.exports = \n" := by
      decide
    unfold jsonWrapperCode
    rw [hL]

/-- Claim C1: for every source-code input, if the transformer invocation for
a variant raises an error, the whole single-file transform fails (no
TransformedFile and in particular no transformed mapping is delivered), and
when that variant is the only failing one the surfaced error is exactly that
variant's error. -/
theorem transformModule_fail_fast (env : Externals) (content : Buffer)
    (options : TransformOptions) (k : String) (cfg : VariantConfig) (e : Err)
    (hpng : jsEndsWith options.filename ".png" = false)
    (hjson : jsEndsWith options.filename ".json" = false)
    (hnodup : ((options.variants.getD defaultVariants).map Prod.fst).Nodup)
    (hmem : (k, cfg) ∈ options.variants.getD defaultVariants)
    (herr : options.transformer content.toStringUtf8 options.filename cfg =
      Except.error e) :
    (∃ e2, transformModule env content options = Except.error e2) ∧
    ((∀ p ∈ options.variants.getD defaultVariants, p.1 ≠ k →
        isOkE (options.transformer content.toStringUtf8 options.filename p.2) = true) →
      transformModule env content options = Except.error e) := by
  rw [transformModule_source_eq env content options hpng hjson]
  have hmem2 : (k, Except.error e) ∈ (options.variants.getD defaultVariants).map
      (fun nv => (nv.1, options.transformer content.toStringUtf8 options.filename nv.2)) :=
    List.mem_map.2 ⟨(k, cfg), hmem, by rw [herr]⟩
  constructor
  · obtain ⟨e2, hs⟩ := runSeries_error_of_mem hmem2
    refine ⟨e2, ?_⟩
    simp only [transformSource]
    rw [hs]
  · intro hothers
    have hnodup2 : (((options.variants.getD defaultVariants).map
        (fun nv => (nv.1, options.transformer content.toStringUtf8 options.filename nv.2))).map
          Prod.fst).Nodup := by
      rw [List.map_map]
      exact hnodup
    have hothers2 : ∀ p ∈ (options.variants.getD defaultVariants).map
        (fun nv => (nv.1, options.transformer content.toStringUtf8 options.filename nv.2)),
        p.1 ≠ k → isOkE p.2 = true := by
      intro p hp hne
      obtain ⟨nv, hnv, rfl⟩ := List.mem_map.1 hp
      exact hothers nv hnv hne
    have hs := runSeries_unique_error hnodup2 hmem2 hothers2
    simp only [transformSource]
    rw [hs]

/-- Claim C2: for every source-code input whose per-variant transforms all
succeed, the key sequence of the transformed mapping equals exactly the key
sequence of the input variants mapping, and the single key default when the
variants field is omitted. -/
theorem transformModule_variant_keys (env : Externals) (content : Buffer)
    (options : TransformOptions)
    (hpng : jsEndsWith options.filename ".png" = false)
    (hjson : jsEndsWith options.filename ".json" = false)
    (hok : ∀ p ∈ options.variants.getD defaultVariants,
      isOkE (options.transformer content.toStringUtf8 options.filename p.2) = true) :
    ∃ tf, transformModule env content options = Except.ok tf ∧
      tf.transformed.map Prod.fst = (options.variants.getD defaultVariants).map Prod.fst ∧
      (options.variants = none → tf.transformed.map Prod.fst = ["default"]) := by
  rw [transformModule_source_eq env content options hpng hjson]
  have hok2 : ∀ p ∈ (options.variants.getD defaultVariants).map
      (fun nv => (nv.1, options.transformer content.toStringUtf8 options.filename nv.2)),
      isOkE p.2 = true := by
    intro p hp
    obtain ⟨nv, hnv, rfl⟩ := List.mem_map.1 hp
    exact hok nv hnv
  obtain ⟨res, hres⟩ := runSeries_ok_of_all hok2
  have hkeys := runSeries_map_fst hres
  have hkeys2 : (res.map (fun kv => (kv.1, makeResult env kv.2.ast options.filename
      content.toStringUtf8 (options.polyfill.getD false)))).map Prod.fst =
      (options.variants.getD defaultVariants).map Prod.fst := by
    rw [List.map_map]
    show res.map Prod.fst = _
    rw [hkeys, List.map_map]
    rfl
  refine ⟨⟨none, content.toStringUtf8, options.filename,
      jsOrNull (env.docblockParseAsObject (env.docblockExtract content.toStringUtf8)).providesModule,
      res.map (fun kv => (kv.1, makeResult env kv.2.ast options.filename
        content.toStringUtf8 (options.polyfill.getD false))),
      if options.polyfill.getD false then "script" else "module", none⟩, ?_, hkeys2, ?_⟩
  · simp only [transformSource]
    rw [hres]
  · intro hv
    rw [hkeys2, hv]
    rfl

/-- Claim C6: for every source-code input with the polyfill flag set, each
variant's dependencies sequence is empty, the file type is script, and the
generated wrapper tree is a single statement immediately invoking a
one-parameter function expression with the global-scope reference this as
its sole argument. -/
theorem transformModule_polyfill (env : Externals) (content : Buffer)
    (options : TransformOptions)
    (hpng : jsEndsWith options.filename ".png" = false)
    (hjson : jsEndsWith options.filename ".json" = false)
    (hpoly : options.polyfill = some true)
    (hok : ∀ p ∈ options.variants.getD defaultVariants,
      isOkE (options.transformer content.toStringUtf8 options.filename p.2) = true) :
    ∃ tf, transformModule env content options = Except.ok tf ∧
      tf.type = "script" ∧
      (∀ q ∈ tf.transformed, q.2.dependencies = []) ∧
      (∀ ast : File, wrapPolyfill ast =
        ⟨⟨[Node.expressionStatement (Node.callExpression
            (Node.functionExpression "" [Node.identifier "global"]
              (Node.blockStatement ast.program.body ast.program.directives))
            [Node.identifier "this"])], []⟩⟩) := by
  rw [transformModule_source_eq env content options hpng hjson]
  have hp2 : options.polyfill.getD false = true := by rw [hpoly]; rfl
  have hok2 : ∀ p ∈ (options.variants.getD defaultVariants).map
      (fun nv => (nv.1, options.transformer content.toStringUtf8 options.filename nv.2)),
      isOkE p.2 = true := by
    intro p hp
    obtain ⟨nv, hnv, rfl⟩ := List.mem_map.1 hp
    exact hok nv hnv
  obtain ⟨res, hres⟩ := runSeries_ok_of_all hok2
  refine ⟨⟨none, content.toStringUtf8, options.filename,
      jsOrNull (env.docblockParseAsObject (env.docblockExtract content.toStringUtf8)).providesModule,
      res.map (fun kv => (kv.1, makeResult env kv.2.ast options.filename
        content.toStringUtf8 (options.polyfill.getD false))),
      if options.polyfill.getD false then "script" else "module", none⟩, ?_, ?_, ?_, ?_⟩
  · simp only [transformSource]
    rw [hres]
  · show (if options.polyfill.getD false then "script" else "module") = "script"
    rw [hp2]
    rfl
  · intro q hq
    obtain ⟨kv, _, rfl⟩ := List.mem_map.1 hq
    show (makeResult env kv.2.ast options.filename content.toStringUtf8
      (options.polyfill.getD false)).dependencies = []
    rw [hp2]
    rfl
  · intro ast
    rfl

/-- Claim C10: for a source-code input with an explicitly empty variants
mapping the operation succeeds with an empty transformed mapping (and the
module or script kind), while the defaulting to the single default variant
applies when the variants field is omitted. -/
theorem transformModule_empty_variants (env : Externals) (content : Buffer)
    (filename : String) (polyfill : Option Bool) (transformer : Transformer)
    (r : TransformerResult)
    (hpng : jsEndsWith filename ".png" = false)
    (hjson : jsEndsWith filename ".json" = false)
    (hdef : transformer content.toStringUtf8 filename [] = Except.ok r) :
    (∃ tf, transformModule env content ⟨filename, polyfill, transformer, some []⟩ =
        Except.ok tf ∧ tf.transformed = [] ∧
        tf.type = (if polyfill.getD false then "script" else "module")) ∧
    (∃ tf2, transformModule env content ⟨filename, polyfill, transformer, none⟩ =
        Except.ok tf2 ∧ tf2.transformed.map Prod.fst = ["default"]) := by
  constructor
  · refine ⟨⟨none, content.toStringUtf8, filename,
      jsOrNull (env.docblockParseAsObject (env.docblockExtract content.toStringUtf8)).providesModule,
      [], if polyfill.getD false then "script" else "module", none⟩, ?_, rfl, rfl⟩
    rw [transformModule_source_eq env content ⟨filename, polyfill, transformer, some []⟩
      hpng hjson]
    rfl
  · refine ⟨⟨none, content.toStringUtf8, filename,
      jsOrNull (env.docblockParseAsObject (env.docblockExtract content.toStringUtf8)).providesModule,
      [("default", makeResult env r.ast filename content.toStringUtf8 (polyfill.getD false))],
      if polyfill.getD false then "script" else "module", none⟩, ?_, rfl⟩
    rw [transformModule_source_eq env content ⟨filename, polyfill, transformer, none⟩
      hpng hjson]
    simp only [transformSource]
    have htasks : runSeries (((⟨filename, polyfill, transformer, none⟩ :
        TransformOptions).variants.getD defaultVariants).map
        (fun nv => (nv.1, (⟨filename, polyfill, transformer, none⟩ :
          TransformOptions).transformer content.toStringUtf8
          (⟨filename, polyfill, transformer, none⟩ : TransformOptions).filename nv.2))) =
        Except.ok [("default", r)] := by
      show runSeries [("default", transformer content.toStringUtf8 filename [])] = _
      rw [hdef]
      rfl
    rw [htasks]
    rfl

/-- A concrete transformed tree for witnesses. -/
def fileW : File := ⟨⟨[], []⟩⟩

/-- A concrete transformer result for witnesses. -/
def trResW : TransformerResult := ⟨fileW⟩

/-- Concrete external collaborators for witnesses: the JSON parser fails on
the text nope and otherwise yields a fixed document named pkg. -/
def envW : Externals :=
  ⟨fun s => if s = "nope" then Except.error "SyntaxError"
            else Except.ok ⟨some "pkg", some "index.js", none, none⟩,
   fun _ => ⟨[], "dependencyMap"⟩,
   fun _ _ _ => ⟨"generated", none⟩,
   fun _ => "",
   fun _ => ⟨none⟩⟩

/-- A concrete transformer for witnesses: fails exactly on one-entry
configurations. -/
def transformerW : Transformer := fun _ _ cfg =>
  if cfg.length = 1 then Except.error "boom" else Except.ok trResW

/-- A concrete buffer for witnesses (the png magic bytes). -/
def bufW : Buffer := ⟨[137, 80, 78, 71], "var x = 1;"⟩

/-- A concrete buffer whose text the witness JSON parser rejects. -/
def bufBadW : Buffer := ⟨[], "nope"⟩

/-- Options with one failing variant among two. -/
def optFailW : TransformOptions :=
  ⟨"foo.js", none, transformerW, some [("a", []), ("b", [("bad", "1")])]⟩

/-- Options with two succeeding variants. -/
def optOkW : TransformOptions := ⟨"foo.js", none, transformerW, some [("dev", []), ("prod", [])]⟩

/-- Options for the polyfill path. -/
def optPolyW : TransformOptions := ⟨"poly.js", some true, transformerW, none⟩

/-- Options for the structured-data path. -/
def optJsonW : TransformOptions := ⟨"data.json", none, transformerW, none⟩

/-- Options for the asset path. -/
def optPngW : TransformOptions := ⟨"icon.png", none, transformerW, none⟩

/-- Witness for the fail-fast claim at a concrete two-variant input whose
second variant fails. -/
theorem transformModule_fail_fast_witness :
    (∃ e2, transformModule envW bufW optFailW = Except.error e2) ∧
    ((∀ p ∈ optFailW.variants.getD defaultVariants, p.1 ≠ "b" →
        isOkE (optFailW.transformer bufW.toStringUtf8 optFailW.filename p.2) = true) →
      transformModule envW bufW optFailW = Except.error "boom") :=
  transformModule_fail_fast envW bufW optFailW "b" [("bad", "1")] "boom"
    (by decide) (by decide) (by decide) (by decide) rfl

/-- Witness for the key-preservation claim at a concrete two-variant input. -/
theorem transformModule_variant_keys_witness :
    ∃ tf, transformModule envW bufW optOkW = Except.ok tf ∧
      tf.transformed.map Prod.fst = (optOkW.variants.getD defaultVariants).map Prod.fst ∧
      (optOkW.variants = none → tf.transformed.map Prod.fst = ["default"]) :=
  transformModule_variant_keys envW bufW optOkW (by decide) (by decide) (by decide)

/-- Witness for the structured-data claim at a concrete json input. -/
theorem transformModule_json_uniform_witness :
    ∃ tf, transformModule envW bufW optJsonW = Except.ok tf ∧
      tf.transformed.map Prod.fst = (optJsonW.variants.getD defaultVariants).map Prod.fst ∧
      (∀ q ∈ tf.transformed,
        q.2.code = jsonWrapperCode bufW.toStringUtf8 ∧ q.2.map = none) ∧
      jsonWrapperCode bufW.toStringUtf8 =
        "__d(function(global, require, module, exports) \x7b module.exports = \n" ++
          bufW.toStringUtf8 ++ "\n\x7d);" ∧
      tf.hasteID = (⟨some "pkg", some "index.js", none, none⟩ : JValue).name :=
  transformModule_json_uniform envW bufW optJsonW ⟨some "pkg", some "index.js", none, none⟩
    (by decide) (by decide) rfl

/-- Witness for the asset round-trip claim at a concrete png input. -/
theorem transformModule_asset_roundtrip_witness :
    ∃ tf, transformModule envW bufW optPngW = Except.ok tf ∧
      tf.transformed = [] ∧ tf.code = "" ∧ tf.hasteID = none ∧ tf.type = "asset" ∧
      ∃ s, tf.assetContent = some s ∧ decodeB64 s.data = bufW.bytes :=
  transformModule_asset_roundtrip envW bufW optPngW (by decide) (by decide)

/-- Witness for the polyfill claim at a concrete input. -/
theorem transformModule_polyfill_witness :
    ∃ tf, transformModule envW bufW optPolyW = Except.ok tf ∧
      tf.type = "script" ∧
      (∀ q ∈ tf.transformed, q.2.dependencies = []) ∧
      (∀ ast : File, wrapPolyfill ast =
        ⟨⟨[Node.expressionStatement (Node.callExpression
            (Node.functionExpression "" [Node.identifier "global"]
              (Node.blockStatement ast.program.body ast.program.directives))
            [Node.identifier "this"])], []⟩⟩) :=
  transformModule_polyfill envW bufW optPolyW (by decide) (by decide) rfl (by decide)

/-- Witness for the dispatcher claim at a concrete png input. -/
theorem transformModule_dispatch_witness :
    transformModule envW bufW optPngW = Except.ok (transformAsset bufW optPngW) ∧
    classify optPngW.filename = FileClass.asset :=
  ⟨(transformModule_dispatch envW bufW optPngW).1 (by decide),
   (transformModule_dispatch envW bufW optPngW).2.2.2.1 (by decide)⟩

/-- Witness for the malformed-structured-data claim at a concrete input. -/
theorem transformModule_json_malformed_witness :
    transformModule envW bufBadW optJsonW = Except.error "SyntaxError" :=
  transformModule_json_malformed envW bufBadW optJsonW "SyntaxError"
    (by decide) (by decide) rfl

/-- Witness for the empty-variants claim at a concrete input. -/
theorem transformModule_empty_variants_witness :
    (∃ tf, transformModule envW bufW ⟨"foo.js", none, transformerW, some []⟩ =
        Except.ok tf ∧ tf.transformed = [] ∧
        tf.type = (if (none : Option Bool).getD false then "script" else "module")) ∧
    (∃ tf2, transformModule envW bufW ⟨"foo.js", none, transformerW, none⟩ =
        Except.ok tf2 ∧ tf2.transformed.map Prod.fst = ["default"]) :=
  transformModule_empty_variants envW bufW "foo.js" none transformerW trResW
    (by decide) (by decide) rfl

end ModuleGraphWorker
